import Mathlib

/-!
Verification of the CityGML geometry and attribute extraction pipeline
(`src/web/src/lib/citygmlService.ts`).

The TypeScript source works on the generic attributed tree produced by an
XML parser and on JavaScript numbers.  The embedding mirrors that world:

* `JsNum` is a JavaScript numeric slot: a rational value, `NaN`, or
  `undefined` (an out-of-range array read).  Floating point is idealized
  as `ℚ`; the claims only involve comparisons, max/min, and arithmetic on
  values re-parsed from decimal text, where `ℚ` agrees with IEEE semantics.
* `JVal` is the parsed-XML value space (strings, numbers, objects, arrays).
  The XML text-to-tree stage (`fast-xml-parser`) and the network fetch are
  outside the extraction core; the pipeline is therefore embedded from its
  parse outcome, `Except String JVal` (an `Error` thrown by the parser with
  its message, or the root tree).
* `proj4` is an oracle `Proj`: given the source system and the horizontal
  pair it either yields a transformed pair or fails (models a throw).

Every function below is translated statement-by-statement from the source
file; names follow the source.  Definitions come first, then the theorems
for the claims.
-/

/-- A JavaScript numeric slot: a finite number, `NaN`, or `undefined`. -/
inductive JsNum where
  | undefinedJs : JsNum
  | nan : JsNum
  | real : ℚ → JsNum
deriving DecidableEq, Repr

/-- The value space of the parsed XML tree: text, numbers, elements, lists. -/
inductive JVal where
  | str : String → JVal
  | num : JsNum → JVal
  | obj : List (String × JVal) → JVal
  | arr : List JVal → JVal

/-- Property lookup `v[key]`: a field of an object, `undefined` otherwise
(JS property access on strings/numbers/arrays by these names yields
`undefined`). -/
def jget (v : JVal) (key : String) : Option JVal :=
  match v with
  | .obj fields => (fields.find? (fun p => p.1 = key)).map (·.2)
  | _ => none

/-- JavaScript truthiness of a defined value. -/
def truthy : JVal → Bool
  | .str s => !(s = "")
  | .num (.real q) => !(q = 0)
  | .num _ => false
  | .obj _ => true
  | .arr _ => true

/-- Truthiness of a possibly-`undefined` value. -/
def jtruthy : Option JVal → Bool
  | some v => truthy v
  | none => false

/-- JavaScript `a || b` on possibly-`undefined` values. -/
def jsOr (a b : Option JVal) : Option JVal :=
  match a with
  | some v => if truthy v then some v else b
  | none => b

/-- JavaScript `a || d` where the final alternative `d` is a literal. -/
def jsOrD (a : Option JVal) (d : JVal) : JVal :=
  match a with
  | some v => if truthy v then v else d
  | none => d

/-- Keep a value only when truthy; models the `if (!x) return …` guards. -/
def truthyVal (a : Option JVal) : Option JVal :=
  match a with
  | some v => if truthy v then some v else none
  | none => none

/-- The `Array.isArray(x) ? x : [x]` normalization. -/
def toArr : JVal → List JVal
  | .arr l => l
  | v => [v]

/-- List read `l[i]` in JS: `undefined` beyond the end. -/
def idxN (l : List JsNum) (i : Nat) : JsNum :=
  l.getD i .undefinedJs

/-- JS strict equality `===` on numeric slots: `NaN` is unequal to
everything including itself; `undefined === undefined` holds. -/
def jsStrictEq : JsNum → JsNum → Bool
  | .real a, .real b => a = b
  | .undefinedJs, .undefinedJs => true
  | _, _ => false

/-- `Math.max` on two values: any `NaN` or `undefined` argument gives `NaN`. -/
def jsMax : JsNum → JsNum → JsNum
  | .real a, .real b => .real (max a b)
  | _, _ => .nan

/-- `Math.min` on two values, `NaN`-propagating like `Math.min`. -/
def jsMin : JsNum → JsNum → JsNum
  | .real a, .real b => .real (min a b)
  | _, _ => .nan

/-- Rational addition, written out on numerators and denominators (equal to
`a + b`; this normalized form unfolds definitionally). -/
def qAdd (a b : ℚ) : ℚ :=
  mkRat (a.num * (b.den : ℤ) + b.num * (a.den : ℤ)) (a.den * b.den)

/-- Rational multiplication, written out on numerators and denominators
(equal to `a * b`). -/
def qMul (a b : ℚ) : ℚ :=
  mkRat (a.num * b.num) (a.den * b.den)

/-- Rational subtraction, written out on numerators and denominators (equal
to `a - b`). -/
def qSub (a b : ℚ) : ℚ :=
  mkRat (a.num * (b.den : ℤ) - b.num * (a.den : ℤ)) (a.den * b.den)

/-- Subtraction: `undefined` or `NaN` operands give `NaN`. -/
def jsSub : JsNum → JsNum → JsNum
  | .real a, .real b => .real (qSub a b)
  | _, _ => .nan

/-- `Math.abs`, `NaN`-propagating. -/
def jsAbs : JsNum → JsNum
  | .real a => .real |a|
  | _ => .nan

/-- `Math.ceil`, `NaN`-propagating. -/
def jsCeil : JsNum → JsNum
  | .real a => .real ((Int.ceil a : ℤ) : ℚ)
  | _ => .nan

/-- Division by a positive literal constant, `NaN`-propagating (the source
only divides a height by the assumed storey height 3). -/
def jsDiv : JsNum → Nat → JsNum
  | .real a, d => .real (mkRat a.num (a.den * d))
  | _, _ => .nan

/-- The `z || 0` defaulting: `undefined`, `NaN` and `0` all give `0`. -/
def jsOrZero : JsNum → JsNum
  | .real q => if q = 0 then .real 0 else .real q
  | _ => .real 0

/-- The whitespace characters recognized by the string routines. -/
def isWsChar (c : Char) : Bool :=
  c = ' ' || c = '\t' || c = '\n' || c = '\r'

/-- Strip leading and trailing whitespace from a character list. -/
def jsTrimList (l : List Char) : List Char :=
  ((l.dropWhile isWsChar).reverse.dropWhile isWsChar).reverse

/-- Take the maximal run of leading decimal digits. -/
def takeDigits : List Char → List Char × List Char
  | [] => ([], [])
  | c :: cs =>
    if c.isDigit then
      let p := takeDigits cs
      (c :: p.1, p.2)
    else ([], c :: cs)

/-- Numeric value of a digit run. -/
def digitsToNat (l : List Char) : Nat :=
  l.foldl (fun n c => 10 * n + (c.toNat - 48)) 0

/-- Value of a fractional digit run `.d₁…dₙ`. -/
def fracVal (l : List Char) : ℚ :=
  mkRat (digitsToNat l : ℤ) (10 ^ l.length)

/-- Optional sign, returning the sign factor and the rest. -/
def parseSign : List Char → ℚ × List Char
  | '+' :: r => (1, r)
  | '-' :: r => (-1, r)
  | l => (1, l)

/-- Decimal significand `digits [. digits]` or `. digits`; fails when no
digit is present. -/
def parseDecCore (l : List Char) : Option (ℚ × List Char) :=
  let ip := takeDigits l
  match ip.2 with
  | '.' :: r2 =>
    let fp := takeDigits r2
    if ip.1 = [] && fp.1 = [] then none
    else some (qAdd (digitsToNat ip.1 : ℚ) (fracVal fp.1), fp.2)
  | _ => if ip.1 = [] then none else some ((digitsToNat ip.1 : ℚ), ip.2)

/-- Exponent digits after a sign; a malformed exponent is left unconsumed. -/
def parseExpDigits (sg : Int) (orig l : List Char) : Int × List Char :=
  let p := takeDigits l
  if p.1 = [] then (0, orig) else (sg * (digitsToNat p.1 : Int), p.2)

/-- Exponent after `e`/`E`, handling an optional sign. -/
def parseExpSign (orig r : List Char) : Int × List Char :=
  match r with
  | '+' :: r2 => parseExpDigits 1 orig r2
  | '-' :: r2 => parseExpDigits (-1) orig r2
  | _ => parseExpDigits 1 orig r

/-- Optional exponent part `e[±]digits`; yields exponent 0 and consumes
nothing when absent or malformed. -/
def parseExpPart (l : List Char) : Int × List Char :=
  match l with
  | 'e' :: r => parseExpSign l r
  | 'E' :: r => parseExpSign l r
  | _ => (0, l)

/-- Scale factor `10 ^ e` for an exponent that may be negative. -/
def tenPow (e : Int) : ℚ :=
  if 0 ≤ e then ((10 : ℕ) ^ e.toNat : ℚ) else mkRat 1 (10 ^ (-e).toNat)

/-- JS `parseFloat` on decimal text: skip leading whitespace, read the
longest numeric prefix, ignore the rest; `NaN` when no digits lead. -/
def jsParseFloat (s : String) : JsNum :=
  let l := s.data.dropWhile isWsChar
  let sg := parseSign l
  match parseDecCore sg.2 with
  | none => .nan
  | some p => .real (qMul (qMul sg.1 p.1) (tenPow (parseExpPart p.2).1))

/-- JS `Number(...)` conversion on decimal text: trims both ends, the empty
string is `0`, and the whole remainder must be a numeric literal. -/
def jsNumber (s : String) : JsNum :=
  let t := jsTrimList s.data
  if t = [] then .real 0
  else
    let sg := parseSign t
    match parseDecCore sg.2 with
    | none => .nan
    | some p =>
      let ep := parseExpPart p.2
      if ep.2 = [] then .real (qMul (qMul sg.1 p.1) (tenPow ep.1)) else .nan

/-- JS `parseInt(s, 10)`: sign and leading digits only. -/
def jsParseInt (s : String) : JsNum :=
  let l := s.data.dropWhile isWsChar
  let sg := parseSign l
  let p := takeDigits sg.2
  if p.1 = [] then .nan else .real (qMul sg.1 (digitsToNat p.1 : ℚ))

/-- Truncation toward zero, as `parseInt` applied to a number's decimal
rendering behaves. -/
def truncRat (q : ℚ) : ℚ :=
  if 0 ≤ q then ((Int.floor q : ℤ) : ℚ) else ((Int.ceil q : ℤ) : ℚ)

/-- `parseFloat` applied to a parsed-XML value (the source feeds it strings
or numbers; an array stringifies to its comma-joined elements, of which the
numeric prefix only reaches the first). -/
def jsParseFloatVal : JVal → JsNum
  | .str s => jsParseFloat s
  | .num (.real q) => .real q
  | .num _ => .nan
  | .arr (.str s :: _) => jsParseFloat s
  | .arr (.num (.real q) :: _) => .real q
  | _ => .nan

/-- `parseInt(…, 10)` applied to a parsed-XML value. -/
def jsParseIntVal : JVal → JsNum
  | .str s => jsParseInt s
  | .num (.real q) => .real (truncRat q)
  | .num _ => .nan
  | .arr (.str s :: _) => jsParseInt s
  | .arr (.num (.real q) :: _) => .real (truncRat q)
  | _ => .nan

/-- JS `s.split(' ')` (single-space separator, empties kept). -/
def splitSpaceGo : List Char → List Char → List String
  | [], cur => [String.mk cur.reverse]
  | c :: r, cur =>
    if c = ' ' then String.mk cur.reverse :: splitSpaceGo r []
    else splitSpaceGo r (c :: cur)

/-- JS `s.split(' ')`. -/
def splitOnSpace (s : String) : List String :=
  splitSpaceGo s.data []

/-- Tokenize a trimmed character list on whitespace runs. -/
def tokensWsGo : List Char → List Char → List String
  | [], cur => if cur = [] then [] else [String.mk cur.reverse]
  | c :: r, cur =>
    if isWsChar c then
      if cur = [] then tokensWsGo r []
      else String.mk cur.reverse :: tokensWsGo r []
    else tokensWsGo r (c :: cur)

/-- JS `s.trim().split(/\s+/)`: the empty trimmed string yields `[""]`
(no match found), otherwise the whitespace-run tokens. -/
def splitWsRuns (s : String) : List String :=
  let t := jsTrimList s.data
  if t = [] then [""] else tokensWsGo t []

/-- The `proj4(fromCRS, 'EPSG:4326', [x, y])` oracle: either the
transformed `[lon, lat]` pair or a failure (a throw). -/
def Proj : Type :=
  String → JsNum → JsNum → Option (JsNum × JsNum)

/-- `transformCoordinates(coords, fromCRS)`: identity for `EPSG:4326`;
otherwise reproject the horizontal pair, defaulting elevation with
`z || 0`; any `proj4` throw is caught and the original coordinates are
returned (`citygmlService.ts` lines 38–52). -/
def transformCoordinates (tf : Proj) (coords : List JsNum) (fromCRS : String) : List JsNum :=
  if fromCRS = "EPSG:4326" then coords
  else
    match tf fromCRS (idxN coords 0) (idxN coords 1) with
    | some lonlat => [lonlat.1, lonlat.2, jsOrZero (idxN coords 2)]
    | none => coords

/-- Replace the first occurrence of `pat` (nonempty) in a character list,
as JS `String.prototype.replace` with a string pattern does. -/
def replaceFirstList (l pat rep : List Char) : List Char :=
  match l with
  | [] => []
  | c :: cs =>
    if pat.isPrefixOf (c :: cs) then rep ++ (c :: cs).drop pat.length
    else c :: replaceFirstList cs pat rep

/-- JS `s.replace(pat, rep)` for plain string patterns (first occurrence). -/
def replaceFirst (s pat rep : String) : String :=
  String.mk (replaceFirstList s.data pat.data rep.data)

/-- The `srsName` post-processing `.replace('urn:ogc:def:crs:', '').replace('::', ':')`. -/
def normalizeSrsName (s : String) : String :=
  replaceFirst (replaceFirst s "urn:ogc:def:crs:" "") "::" ":"

/-- `extractCRS(cityModel)` (`citygmlService.ts` lines 54–77): the envelope
`srsName` attribute, else the root `srsName` attribute, else `EPSG:4326`;
applying the string replaces to a non-string attribute throws and is caught,
yielding the default. -/
def extractCRS (cityModel : JVal) : String :=
  let defaultCRS := "EPSG:4326"
  match truthyVal (jsOr (jget cityModel "gml:boundedBy") (jget cityModel "boundedBy")) with
  | some boundedBy =>
    match truthyVal (jsOr (jget boundedBy "gml:Envelope") (jget boundedBy "Envelope")) with
    | some envelope =>
      match truthyVal (jget envelope "@_srsName") with
      | some (.str s) => normalizeSrsName s
      | some _ => defaultCRS
      | none =>
        match truthyVal (jget cityModel "@_srsName") with
        | some (.str s) => normalizeSrsName s
        | some _ => defaultCRS
        | none => defaultCRS
    | none =>
      match truthyVal (jget cityModel "@_srsName") with
      | some (.str s) => normalizeSrsName s
      | some _ => defaultCRS
      | none => defaultCRS
  | none =>
    match truthyVal (jget cityModel "@_srsName") with
    | some (.str s) => normalizeSrsName s
    | some _ => defaultCRS
    | none => defaultCRS

/-- The document-level bounds accumulator. -/
structure Bounds where
  north : JsNum
  south : JsNum
  east : JsNum
  west : JsNum
deriving DecidableEq, Repr

/-- The initial extreme values of the accumulator. -/
def boundsInit : Bounds :=
  { north := .real (-90), south := .real 90, east := .real (-180), west := .real 180 }

/-- One bounds update from a transformed vertex (`bounds.north = Math.max(bounds.north, transformed[1])` and the three analogues). -/
def updateBounds (b : Bounds) (t : List JsNum) : Bounds :=
  { north := jsMax b.north (idxN t 1)
    south := jsMin b.south (idxN t 1)
    east := jsMax b.east (idxN t 0)
    west := jsMin b.west (idxN t 0) }

/-- Group a flat coordinate list in threes, reading past the end as
`undefined`, exactly as the `for (let i = 0; i < coords.length; i += 3)`
loop builds `[coords[i], coords[i+1], coords[i+2]]`. -/
def groupTriples : List JsNum → List (List JsNum)
  | [] => []
  | [a] => [[a, .undefinedJs, .undefinedJs]]
  | [a, b] => [[a, b, .undefinedJs]]
  | a :: b :: c :: r => [a, b, c] :: groupTriples r

/-- Transform one raw vertex, append it, and fold it into the bounds. -/
def pushVert (tf : Proj) (crs : String) (acc : List (List JsNum) × Bounds)
    (raw : List JsNum) : List (List JsNum) × Bounds :=
  let t := transformCoordinates tf raw crs
  (acc.1 ++ [t], updateBounds acc.2 t)

/-- The coordinate-collection phase of `extractPolygon`: the `posList`
encoding (one whitespace-separated flat list in groups of three) when that
field is truthy, otherwise the `pos` encoding (individual position strings;
non-strings are skipped). -/
def ringCoords (tf : Proj) (ring : JVal) (crs : String) (b : Bounds) :
    List (List JsNum) × Bounds :=
  match truthyVal (jsOr (jget ring "gml:posList") (jget ring "posList")) with
  | some pl =>
    let coords : List JsNum :=
      match pl with
      | .str s => (splitWsRuns s).map jsNumber
      | _ => []
    (groupTriples coords).foldl (pushVert tf crs) ([], b)
  | none =>
    (toArr (jsOrD (jsOr (jget ring "gml:pos") (jget ring "pos")) (.arr []))).foldl
      (fun acc p =>
        match p with
        | .str s => pushVert tf crs acc ((splitWsRuns s).map jsNumber)
        | _ => acc) ([], b)

/-- The closure test of `extractPolygon`: the list is nonempty and its
first and last coordinate differ (by JS `!==`) in their first or second
component. -/
def closeCond (cs : List (List JsNum)) : Bool :=
  decide (0 < cs.length) &&
    (!(jsStrictEq (idxN (cs.headD []) 0) (idxN (cs.getLastD []) 0)) ||
     !(jsStrictEq (idxN (cs.headD []) 1) (idxN (cs.getLastD []) 1)))

/-- The closure step of `extractPolygon`: append a copy of the first
coordinate when `closeCond` holds. -/
def closeStep (cs : List (List JsNum)) : List (List JsNum) :=
  if closeCond cs then cs ++ [cs.headD []] else cs

/-- The closure step and final emptiness check of `extractPolygon`: close
the ring when needed; an empty coordinate list yields `null`. -/
def closeRing (cs : List (List JsNum)) : Option (List (List JsNum)) :=
  if 0 < (closeStep cs).length then some (closeStep cs) else none

/-- `extractPolygon(surface, sourceCRS, bounds)` (`citygmlService.ts`
lines 240–297): descend `Polygon` → `exterior` → `LinearRing`, collect the
ring coordinates, close the ring, and return it with the updated bounds;
`null` when any level is missing or no coordinates result. -/
def extractPolygon (tf : Proj) (surface : JVal) (crs : String) (b : Bounds) :
    Option (List (List JsNum)) × Bounds :=
  match truthyVal (jsOr (jget surface "gml:Polygon") (jget surface "Polygon")) with
  | none => (none, b)
  | some polygon =>
  match truthyVal (jsOr (jget polygon "gml:exterior") (jget polygon "exterior")) with
  | none => (none, b)
  | some exterior =>
  match truthyVal (jsOr (jget exterior "gml:LinearRing") (jget exterior "LinearRing")) with
  | none => (none, b)
  | some ring =>
    let rc := ringCoords tf ring crs b
    (closeRing rc.1, rc.2)

/-- The ground-surface pass of `extractSurfacesFromElement`: iterate the
`GroundSurface` entries (skipping falsy ones) and collect every
successfully extracted polygon. -/
def groundSurfacesPass (tf : Proj) (e : JVal) (crs : String) (b : Bounds) :
    List (List (List JsNum)) × Bounds :=
  (toArr (jsOrD (jsOr (jget e "bldg:GroundSurface") (jget e "GroundSurface")) (.arr []))).foldl
    (fun acc s =>
      if truthy s then
        let p := extractPolygon tf s crs acc.2
        match p.1 with
        | some poly => (acc.1 ++ [poly], p.2)
        | none => (acc.1, p.2)
      else acc) ([], b)

/-- The solid fallback of `extractSurfacesFromElement`: descend
`lod2Solid`/`lod1Solid` → `exterior` → `Shell` → `surfaceMember` and collect
every successfully extracted polygon. -/
def solidPass (tf : Proj) (e : JVal) (crs : String) (b : Bounds) :
    List (List (List JsNum)) × Bounds :=
  match truthyVal (jsOr (jsOr (jsOr (jget e "bldg:lod2Solid") (jget e "lod2Solid"))
      (jget e "bldg:lod1Solid")) (jget e "lod1Solid")) with
  | none => ([], b)
  | some solid =>
  match truthyVal (jsOr (jget solid "gml:exterior") (jget solid "exterior")) with
  | none => ([], b)
  | some exterior =>
  match truthyVal (jsOr (jget exterior "gml:Shell") (jget exterior "Shell")) with
  | none => ([], b)
  | some shell =>
    (toArr (jsOrD (jsOr (jget shell "gml:surfaceMember") (jget shell "surfaceMember")) (.arr []))).foldl
      (fun acc s =>
        let p := extractPolygon tf s crs acc.2
        match p.1 with
        | some poly => (acc.1 ++ [poly], p.2)
        | none => (acc.1, p.2)) ([], b)

/-- `extractSurfacesFromElement(element, sourceCRS, bounds)`
(`citygmlService.ts` lines 199–238): the ground-surface pass, falling back
to the solid pass only when the former produced zero surfaces. -/
def extractSurfacesFromElement (tf : Proj) (e : JVal) (crs : String) (b : Bounds) :
    List (List (List JsNum)) × Bounds :=
  let g := groundSurfacesPass tf e crs b
  if g.1 = [] then solidPass tf e crs g.2 else g

/-- `extractGroundSurfaces(building, sourceCRS, bounds)` (`citygmlService.ts`
lines 181–197): the building's own surfaces, then those of each truthy
`BuildingPart`, appended as siblings. -/
def extractGroundSurfaces (tf : Proj) (building : JVal) (crs : String) (b : Bounds) :
    List (List (List JsNum)) × Bounds :=
  let m := extractSurfacesFromElement tf building crs b
  (toArr (jsOrD (jsOr (jget building "bldg:BuildingPart") (jget building "BuildingPart")) (.arr []))).foldl
    (fun acc part =>
      if truthy part then
        let p := extractSurfacesFromElement tf part crs acc.2
        (acc.1 ++ p.1, p.2)
      else acc) m

/-- The explicit measured-height source of `extractBuildingHeight`. -/
def measuredHeightOf (building : JVal) : JsNum :=
  jsParseFloatVal (jsOrD (jsOr (jget building "bldg:measuredHeight") (jget building "measuredHeight")) (.str "0"))

/-- The explicit height-above-ground source of `extractBuildingHeight`. -/
def heightAboveGroundOf (building : JVal) : JsNum :=
  jsParseFloatVal (jsOrD (jsOr (jget building "bldg:heightAboveGround") (jget building "heightAboveGround")) (.str "0"))

/-- A corner rendered to numbers: `split(' ').map(Number)` for strings,
`[0, 0, 0]` otherwise. -/
def cornerNums : JVal → List JsNum
  | .str s => (splitOnSpace s).map jsNumber
  | _ => [.real 0, .real 0, .real 0]

/-- The bounding-envelope height source of `extractBuildingHeight`:
`Math.abs(upper[2] - lower[2])` when both corners are present, `0`
otherwise. -/
def bboxHeightOf (building : JVal) : JsNum :=
  match truthyVal (jsOr (jget building "gml:boundedBy") (jget building "boundedBy")) with
  | none => .real 0
  | some boundedBy =>
  match truthyVal (jsOr (jget boundedBy "gml:Envelope") (jget boundedBy "Envelope")) with
  | none => .real 0
  | some envelope =>
  match truthyVal (jsOr (jget envelope "gml:lowerCorner") (jget envelope "lowerCorner")),
        truthyVal (jsOr (jget envelope "gml:upperCorner") (jget envelope "upperCorner")) with
  | some lc, some uc =>
    jsAbs (jsSub (idxN (cornerNums uc) 2) (idxN (cornerNums lc) 2))
  | _, _ => .real 0

/-- `extractBuildingHeight(building)` (`citygmlService.ts` lines 299–326):
`Math.max(measuredHeight, heightAboveGround, boundingBoxHeight, 10)`. -/
def extractBuildingHeight (building : JVal) : JsNum :=
  jsMax (jsMax (jsMax (measuredHeightOf building) (heightAboveGroundOf building))
    (bboxHeightOf building)) (.real 10)

/-- `extractFloors(building)`: the positive explicit storey count, else
`Math.ceil(extractBuildingHeight(building) / 3)`. -/
def extractFloors (building : JVal) : JsNum :=
  let storeys := jsParseIntVal (jsOrD (jsOr (jget building "bldg:storeysAboveGround") (jget building "storeysAboveGround")) (.str "0"))
  match storeys with
  | .real q => if 0 < q then .real q else jsCeil (jsDiv (extractBuildingHeight building) 3)
  | _ => jsCeil (jsDiv (extractBuildingHeight building) 3)

/-- `extractYearBuilt(building)`: the positive explicit construction year,
else `2000`. -/
def extractYearBuilt (building : JVal) : JsNum :=
  let yearBuilt := jsParseIntVal (jsOrD (jsOr (jget building "bldg:yearOfConstruction") (jget building "yearOfConstruction")) (.str "0"))
  match yearBuilt with
  | .real q => if 0 < q then .real q else .real 2000
  | _ => .real 2000

/-- `extractBuildingType(building)`: the `function` field, else `'UNKNOWN'`. -/
def extractBuildingType (building : JVal) : JVal :=
  jsOrD (jsOr (jget building "bldg:function") (jget building "function")) (.str "UNKNOWN")

/-- `extractGroundLevel(building)`: `lowerCorner` z-component with `|| 0`
defaulting, else `0`. -/
def extractGroundLevel (building : JVal) : JsNum :=
  match truthyVal (jsOr (jget building "gml:boundedBy") (jget building "boundedBy")) with
  | none => .real 0
  | some boundedBy =>
  match truthyVal (jsOr (jget boundedBy "gml:Envelope") (jget boundedBy "Envelope")) with
  | none => .real 0
  | some envelope =>
  match truthyVal (jsOr (jget envelope "gml:lowerCorner") (jget envelope "lowerCorner")) with
  | none => .real 0
  | some lowerCorner => jsOrZero (idxN (cornerNums lowerCorner) 2)

/-- One normalized building record (`BuildingData` with its `properties`
bag flattened and the constant `geometry.type` field omitted). -/
structure BuildingData where
  id : Option JVal
  height : JsNum
  floors : JsNum
  yearBuilt : JsNum
  buildingType : JVal
  groundLevel : JsNum
  geometry : List (List (List JsNum))

/-- The `data` payload of a successful result. -/
structure CityGMLData where
  buildings : List BuildingData
  bounds : Option Bounds
  sourceCRS : String

/-- The pipeline's output contract (`CityGMLProcessingResult`). -/
structure CityGMLProcessingResult where
  success : Bool
  error : Option String
  data : Option CityGMLData

/-- The body of the per-member loop of `processCityGML`: skip members
without a truthy `Building`, skip buildings whose surface extraction is
empty (logged as a warning in the source), otherwise assemble the record. -/
def processMember (tf : Proj) (crs : String) (member : JVal) (b : Bounds) :
    Option BuildingData × Bounds :=
  match truthyVal (jsOr (jget member "Building") (jget member "bldg:Building")) with
  | none => (none, b)
  | some building =>
    let g := extractGroundSurfaces tf building crs b
    if g.1 = [] then (none, g.2)
    else
      (some
        { id := jsOr (jget building "@_gml:id") (jget building "@_id")
          height := extractBuildingHeight building
          floors := extractFloors building
          yearBuilt := extractYearBuilt building
          buildingType := extractBuildingType building
          groundLevel := extractGroundLevel building
          geometry := g.1 }, g.2)

/-- The member loop of `processCityGML`, threading the bounds accumulator. -/
def processMembers (tf : Proj) (crs : String) (members : List JVal) (b : Bounds) :
    List BuildingData × Bounds :=
  members.foldl
    (fun acc m =>
      let p := processMember tf crs m acc.2
      match p.1 with
      | some bd => (acc.1 ++ [bd], p.2)
      | none => (acc.1, p.2)) ([], b)

/-- The city-model container lookup of `processCityGML`:
`result['CityModel'] || result['core:CityModel']`, rejected when falsy. -/
def cityModelOf (root : JVal) : Option JVal :=
  truthyVal (jsOr (jget root "CityModel") (jget root "core:CityModel"))

/-- `processCityGML` from its XML-parse outcome onward (`citygmlService.ts`
lines 79–179): a parse failure or a missing city model is caught as
`{success: false, error}`; otherwise every `cityObjectMember` is processed
and the bounds are reported only when `bounds.north !== -90`. -/
def processCityGML (tf : Proj) (parsed : Except String JVal) : CityGMLProcessingResult :=
  match parsed with
  | .error msg => { success := false, error := some msg, data := none }
  | .ok root =>
    match cityModelOf root with
    | none =>
      { success := false, error := some "Invalid CityGML: No CityModel found", data := none }
    | some cityModel =>
      let crs := extractCRS cityModel
      let members := toArr (jsOrD (jget cityModel "cityObjectMember") (.arr []))
      let pm := processMembers tf crs members boundsInit
      { success := true
        error := none
        data := some
          { buildings := pm.1
            bounds := if jsStrictEq pm.2.north (.real (-90)) then none else some pm.2
            sourceCRS := crs } }

/-- A concrete `proj4` oracle that fails on every call (models an unknown
source system: every `proj4` invocation throws). -/
def tfNone : Proj := fun _ _ _ => none

/-- Ring well-formedness as the pipeline actually guarantees it: nonempty,
with first and last vertex agreeing in their first two components. -/
def ringOk (r : List (List JsNum)) : Prop :=
  r ≠ [] ∧
  idxN (r.headD []) 0 = idxN (r.getLastD []) 0 ∧
  idxN (r.headD []) 1 = idxN (r.getLastD []) 1

/-- The invariant every assembled record satisfies: nonempty geometry, all
rings closed in x/y, and a height computed by `extractBuildingHeight` on
some source element. -/
def RecOk (bd : BuildingData) : Prop :=
  bd.geometry ≠ [] ∧ (∀ r ∈ bd.geometry, ringOk r) ∧
  ∃ bj, bd.height = extractBuildingHeight bj

/-- The keys of the solid-geometry representation read by `solidPass`. -/
def solidKeyList : List String :=
  ["bldg:lod2Solid", "lod2Solid", "bldg:lod1Solid", "lod1Solid"]

/-- Remove the solid-geometry fields of an element (used to state that the
solid representation is irrelevant once a ground-surface polygon exists). -/
def eraseSolidKeys : JVal → JVal
  | .obj fields => .obj (fields.filter (fun p => !(solidKeyList.contains p.1)))
  | v => v

/-- The document-level bounds accumulator after processing all members of a
city model, exactly as `processCityGML` computes it. -/
def docBounds (tf : Proj) (cityModel : JVal) : Bounds :=
  (processMembers tf (extractCRS cityModel)
    (toArr (jsOrD (jget cityModel "cityObjectMember") (.arr []))) boundsInit).2

/-- Building of the spec scenario "missing height, present envelope": no
explicit height fields, bounding envelope of z-extent 9.2. -/
def bldg92 : JVal :=
  .obj [("boundedBy", .obj [("Envelope", .obj
    [("lowerCorner", .str "0 0 0"), ("upperCorner", .str "0 0 9.2")])])]

/-- Building with an explicit positive measured height smaller than 10. -/
def bldg5 : JVal := .obj [("measuredHeight", .str "5")]

/-- Building whose footprint ring is closed in x and y but not in z. -/
def bldgZ : JVal :=
  .obj [("GroundSurface", .obj [("Polygon", .obj [("exterior", .obj
    [("LinearRing", .obj [("posList", .str "0 0 0 1 0 0 1 1 0 0 0 5")])])])])]

/-- Parsed document holding only `bldgZ`. -/
def docZ : Except String JVal :=
  .ok (.obj [("CityModel", .obj [("cityObjectMember", .arr [.obj [("Building", bldgZ)]])])])

/-- The ring the pipeline returns for `bldgZ`: left open in z. -/
def ringZ : List (List JsNum) :=
  [[.real 0, .real 0, .real 0], [.real 1, .real 0, .real 0],
   [.real 1, .real 1, .real 0], [.real 0, .real 0, .real 5]]

/-- The record the pipeline returns for `bldgZ`. -/
def recZ : BuildingData :=
  { id := none, height := .real 10, floors := .real 4, yearBuilt := .real 2000,
    buildingType := .str "UNKNOWN", groundLevel := .real 0, geometry := [ringZ] }

/-- The data payload the pipeline returns for `docZ`. -/
def dataZ : CityGMLData :=
  { buildings := [recZ],
    bounds := some { north := .real 1, south := .real 0, east := .real 1, west := .real 0 },
    sourceCRS := "EPSG:4326" }

/-- Building whose only ring is a single point. -/
def bldg1pt : JVal :=
  .obj [("GroundSurface", .obj [("Polygon", .obj [("exterior", .obj
    [("LinearRing", .obj [("posList", .str "1 2 3")])])])])]

/-- Parsed document holding only `bldg1pt`. -/
def doc1pt : Except String JVal :=
  .ok (.obj [("CityModel", .obj [("cityObjectMember", .arr [.obj [("Building", bldg1pt)]])])])

/-- Building with a non-numeric measured-height text and valid geometry. -/
def bldgNaN : JVal :=
  .obj [("measuredHeight", .str "abc"),
        ("GroundSurface", .obj [("Polygon", .obj [("exterior", .obj
          [("LinearRing", .obj [("posList", .str "1 2 0 3 4 0 5 0 0")])])])])]

/-- Parsed document holding only `bldgNaN`. -/
def docNaN : Except String JVal :=
  .ok (.obj [("CityModel", .obj [("cityObjectMember", .arr [.obj [("Building", bldgNaN)]])])])

/-- A well-formed building with an id and a footprint. -/
def bldgA : JVal :=
  .obj [("@_id", .str "A"),
        ("GroundSurface", .obj [("Polygon", .obj [("exterior", .obj
          [("LinearRing", .obj [("posList", .str "0 0 0 1 0 0 0 1 0")])])])])]

/-- A building whose geometry tags are entirely absent. -/
def bldgB : JVal := .obj [("@_id", .str "B"), ("measuredHeight", .str "12")]

/-- Parsed document holding the well-formed `bldgA` and the geometry-less
`bldgB`. -/
def docC5 : Except String JVal :=
  .ok (.obj [("CityModel", .obj [("cityObjectMember",
    .arr [.obj [("Building", bldgA)], .obj [("Building", bldgB)]])])])

/-- Building with every vertex latitude strictly below -90. -/
def bldgC9 : JVal :=
  .obj [("GroundSurface", .obj [("Polygon", .obj [("exterior", .obj
    [("LinearRing", .obj [("posList", .str "10 -100 0 11 -100 0 11 -99 0")])])])])]

/-- City model holding only `bldgC9`. -/
def cmC9 : JVal := .obj [("cityObjectMember", .arr [.obj [("Building", bldgC9)]])]

/-- Document root holding `cmC9`. -/
def rootC9 : JVal := .obj [("CityModel", cmC9)]

/-- Parsed document holding only `bldgC9`. -/
def docC9 : Except String JVal := .ok rootC9

/-- A surface carrying a closed footprint polygon. -/
def surfC8 : JVal :=
  .obj [("Polygon", .obj [("exterior", .obj
    [("LinearRing", .obj [("posList", .str "1 2 0 3 2 0 3 4 0 1 2 0")])])])]

/-- The ring extracted from `surfC8`. -/
def ringC8 : List (List JsNum) :=
  [[.real 1, .real 2, .real 0], [.real 3, .real 2, .real 0],
   [.real 3, .real 4, .real 0], [.real 1, .real 2, .real 0]]

/-- Element with a ground-surface element that yields no polygon, plus a
solid representation that does. -/
def elemC8 : JVal :=
  .obj [("GroundSurface", .obj [("dummy", .num (.real 1))]),
        ("lod2Solid", .obj [("exterior", .obj [("Shell", .obj
          [("surfaceMember", surfC8)])])])]

/-- Element with a polygon-bearing ground surface and a solid. -/
def elemC8g : JVal :=
  .obj [("GroundSurface", surfC8),
        ("lod2Solid", .obj [("exterior", .obj [("Shell", .obj
          [("surfaceMember", surfC8)])])])]

theorem jsStrictEq_true {a b : JsNum} (h : jsStrictEq a b = true) : a = b := by
  cases a <;> cases b <;> simp_all [jsStrictEq]

theorem getLastD_append_one {α : Type} (cs : List α) (a d : α) :
    (cs ++ [a]).getLastD d = a := by
  induction cs with
  | nil => rfl
  | cons x xs ih =>
    cases xs with
    | nil => rfl
    | cons y ys => simpa using ih

theorem headD_append_one {α : Type} (cs : List α) (a d : α) (h : cs ≠ []) :
    (cs ++ [a]).headD d = cs.headD d := by
  cases cs with
  | nil => exact absurd rfl h
  | cons x xs => rfl

theorem closeRing_ok {cs r : List (List JsNum)} (h : closeRing cs = some r) :
    ringOk r := by
  unfold closeRing at h
  have hr : r = closeStep cs := by
    by_cases h2 : 0 < (closeStep cs).length
    · rw [if_pos h2] at h; exact (Option.some_injective _ h).symm
    · rw [if_neg h2] at h; exact absurd h (by simp)
  have hlen : 0 < (closeStep cs).length := by
    by_cases h2 : 0 < (closeStep cs).length
    · exact h2
    · rw [if_neg h2] at h; exact absurd h (by simp)
  subst hr
  unfold closeStep at hlen ⊢
  by_cases hc : closeCond cs = true
  · rw [if_pos hc] at hlen ⊢
    have hpos : 0 < cs.length := by
      have := (Bool.and_eq_true _ _).mp hc
      exact of_decide_eq_true this.1
    have hne : cs ≠ [] := List.ne_nil_of_length_pos hpos
    refine ⟨by simp, ?_, ?_⟩
    · rw [headD_append_one cs _ _ hne, getLastD_append_one]
    · rw [headD_append_one cs _ _ hne, getLastD_append_one]
  · rw [if_neg hc] at hlen ⊢
    have hne : cs ≠ [] := List.ne_nil_of_length_pos hlen
    have hb : ¬((!(jsStrictEq (idxN (cs.headD []) 0) (idxN (cs.getLastD []) 0)) ||
        (!(jsStrictEq (idxN (cs.headD []) 1) (idxN (cs.getLastD []) 1)))) = true) := by
      intro hcontra
      refine hc ?_
      simp only [closeCond, Bool.and_eq_true, decide_eq_true_eq]
      exact ⟨hlen, hcontra⟩
    rw [Bool.or_eq_true, not_or] at hb
    obtain ⟨hb0, hb1⟩ := hb
    refine ⟨hne, ?_, ?_⟩
    · exact jsStrictEq_true (by simpa using hb0)
    · exact jsStrictEq_true (by simpa using hb1)

theorem extractPolygon_ok {tf : Proj} {s : JVal} {crs : String} {b : Bounds}
    {r : List (List JsNum)} (h : (extractPolygon tf s crs b).1 = some r) :
    ringOk r := by
  unfold extractPolygon at h
  split at h
  · simp at h
  · split at h
    · simp at h
    · split at h
      · simp at h
      · exact closeRing_ok (by simpa using h)

/-- Fold preservation: when each step of a fold only appends elements
satisfying `Q`, every element of the final first component either came from
the initial one or satisfies `Q`. -/
theorem foldl_fst_pres {α γ β : Type} (step : List γ × β → α → List γ × β)
    (Q : γ → Prop)
    (hstep : ∀ acc x r, r ∈ (step acc x).1 → r ∈ acc.1 ∨ Q r) :
    ∀ (l : List α) (acc : List γ × β), (∀ r ∈ acc.1, Q r) →
      ∀ r ∈ (l.foldl step acc).1, Q r := by
  intro l
  induction l with
  | nil => intro acc hacc r hr; exact hacc r hr
  | cons x xs ih =>
    intro acc hacc r hr
    rw [List.foldl_cons] at hr
    refine ih (step acc x) ?_ r hr
    intro r2 hr2
    rcases hstep acc x r2 hr2 with h2 | h2
    · exact hacc r2 h2
    · exact h2

theorem groundSurfacesPass_ok (tf : Proj) (e : JVal) (crs : String) (b : Bounds) :
    ∀ r ∈ (groundSurfacesPass tf e crs b).1, ringOk r := by
  unfold groundSurfacesPass
  refine foldl_fst_pres _ ringOk ?_ _ ([], b) (by simp)
  intro acc x r hr
  dsimp only at hr
  by_cases ht : truthy x
  · rw [if_pos ht] at hr
    rcases hp : (extractPolygon tf x crs acc.2).1 with _ | poly
    · rw [hp] at hr; exact Or.inl hr
    · rw [hp] at hr
      rcases List.mem_append.mp hr with h2 | h2
      · exact Or.inl h2
      · exact Or.inr (by rw [List.mem_singleton.mp h2]; exact extractPolygon_ok hp)
  · rw [if_neg ht] at hr; exact Or.inl hr

theorem solidPass_ok (tf : Proj) (e : JVal) (crs : String) (b : Bounds) :
    ∀ r ∈ (solidPass tf e crs b).1, ringOk r := by
  unfold solidPass
  split
  · simp
  · split
    · simp
    · split
      · simp
      · refine foldl_fst_pres _ ringOk ?_ _ ([], b) (by simp)
        intro acc x r hr
        dsimp only at hr
        rcases hp : (extractPolygon tf x crs acc.2).1 with _ | poly
        · rw [hp] at hr; exact Or.inl hr
        · rw [hp] at hr
          rcases List.mem_append.mp hr with h2 | h2
          · exact Or.inl h2
          · exact Or.inr (by rw [List.mem_singleton.mp h2]; exact extractPolygon_ok hp)

theorem extractSurfacesFromElement_ok (tf : Proj) (e : JVal) (crs : String) (b : Bounds) :
    ∀ r ∈ (extractSurfacesFromElement tf e crs b).1, ringOk r := by
  unfold extractSurfacesFromElement
  by_cases hg : (groundSurfacesPass tf e crs b).1 = []
  · rw [if_pos hg]
    exact solidPass_ok tf e crs _
  · rw [if_neg hg]
    exact groundSurfacesPass_ok tf e crs b

theorem extractGroundSurfaces_ok (tf : Proj) (building : JVal) (crs : String) (b : Bounds) :
    ∀ r ∈ (extractGroundSurfaces tf building crs b).1, ringOk r := by
  unfold extractGroundSurfaces
  refine foldl_fst_pres _ ringOk ?_ _ _ (extractSurfacesFromElement_ok tf building crs b)
  intro acc x r hr
  dsimp only at hr
  by_cases ht : truthy x
  · rw [if_pos ht] at hr
    rcases List.mem_append.mp hr with h2 | h2
    · exact Or.inl h2
    · exact Or.inr (extractSurfacesFromElement_ok tf x crs acc.2 r h2)
  · rw [if_neg ht] at hr; exact Or.inl hr

theorem processMember_ok {tf : Proj} {crs : String} {m : JVal} {b : Bounds}
    {bd : BuildingData} (h : (processMember tf crs m b).1 = some bd) :
    RecOk bd := by
  unfold processMember at h
  split at h
  · simp at h
  · rename_i building hb
    by_cases hg : (extractGroundSurfaces tf building crs b).1 = []
    · rw [if_pos hg] at h; simp at h
    · rw [if_neg hg] at h
      have hbd := (Option.some_injective _ (by simpa using h)).symm
      subst hbd
      exact ⟨hg, fun r hr => extractGroundSurfaces_ok tf building crs b r hr,
        ⟨building, rfl⟩⟩

theorem processMembers_ok (tf : Proj) (crs : String) (members : List JVal) (b : Bounds) :
    ∀ bd ∈ (processMembers tf crs members b).1, RecOk bd := by
  unfold processMembers
  refine foldl_fst_pres _ RecOk ?_ _ ([], b) (by simp)
  intro acc x bd hbd
  dsimp only at hbd
  rcases hp : (processMember tf crs x acc.2).1 with _ | bd2
  · rw [hp] at hbd; exact Or.inl hbd
  · rw [hp] at hbd
    rcases List.mem_append.mp hbd with h2 | h2
    · exact Or.inl h2
    · exact Or.inr (by rw [List.mem_singleton.mp h2]; exact processMember_ok hp)

/-- Master invariant: every building of any successful result satisfies
`RecOk`. -/
theorem buildings_ok (tf : Proj) (parsed : Except String JVal)
    (data : CityGMLData) (bd : BuildingData)
    (hd : (processCityGML tf parsed).data = some data)
    (hbd : bd ∈ data.buildings) : RecOk bd := by
  rcases parsed with msg | root
  · simp [processCityGML] at hd
  · rcases hcm : cityModelOf root with _ | cityModel
    · simp [processCityGML, hcm] at hd
    · simp only [processCityGML, hcm, Option.some.injEq] at hd
      rw [← hd] at hbd
      exact processMembers_ok _ _ _ _ bd hbd

/-- The shape of every extracted height: `NaN`, or a real at least the
hard floor of 10. -/
theorem extractBuildingHeight_shape (bj : JVal) :
    extractBuildingHeight bj = .nan ∨
    ∃ q, extractBuildingHeight bj = .real q ∧ 10 ≤ q := by
  unfold extractBuildingHeight
  rcases hX : jsMax (jsMax (measuredHeightOf bj) (heightAboveGroundOf bj)) (bboxHeightOf bj)
    with _ | _ | a
  · left; rfl
  · left; rfl
  · right; exact ⟨max a 10, rfl, le_max_right a 10⟩

/-- C1 (counterexample): in the spec scenario with no explicit height fields
and a bounding envelope of z-extent 9.2, the envelope source is indeed 9.2,
yet the extracted height is 10, not 9.2 — the configured minimum
participates in the maximum unconditionally, not only when all three
sources are absent or zero. -/
theorem C1_counterexample :
    bboxHeightOf bldg92 = .real (mkRat 46 5) ∧
    (mkRat 46 5 : ℚ) = 46 / 5 ∧
    extractBuildingHeight bldg92 = .real 10 ∧
    (10 : ℚ) ≠ 46 / 5 := by
  refine ⟨rfl, ?_, rfl, ?_⟩
  · rw [Rat.mkRat_eq_div]; norm_num
  · norm_num

/-- C1 (amended): the extracted height is the maximum of the measured
height, the height above ground, the bounding-envelope height, and the
configured minimum of 10 — the minimum participating unconditionally; hence
in the scenario with an envelope height of 9.2 and the other sources zero,
the extracted height is 10. -/
theorem C1_height_is_max_with_floor (b : JVal) (m h q : ℚ)
    (hm : measuredHeightOf b = .real m) (hh : heightAboveGroundOf b = .real h)
    (hq : bboxHeightOf b = .real q) :
    extractBuildingHeight b = .real (max (max (max m h) q) 10) := by
  unfold extractBuildingHeight
  rw [hm, hh, hq]
  rfl

/-- C1 (witness): the amended height formula evaluated on the 9.2-envelope
scenario building. -/
theorem C1_witness :
    extractBuildingHeight bldg92 = .real (max (max (max 0 0) (mkRat 46 5)) 10) :=
  C1_height_is_max_with_floor bldg92 0 0 (mkRat 46 5) rfl rfl rfl

/-- C10: whenever the three height sources evaluate to numbers (no `NaN`),
the extracted height is at least 10, and when all three sources are at most
10 the result is exactly 10 — so an explicitly declared positive measured
height smaller than 10 is raised to 10 rather than returned as-is. -/
theorem C10_unconditional_min_height (b : JVal) (m h q : ℚ)
    (hm : measuredHeightOf b = .real m) (hh : heightAboveGroundOf b = .real h)
    (hq : bboxHeightOf b = .real q) :
    ∃ r, extractBuildingHeight b = .real r ∧ 10 ≤ r ∧
      (m ≤ 10 → h ≤ 10 → q ≤ 10 → r = 10) := by
  refine ⟨max (max (max m h) q) 10, ?_, le_max_right _ _, ?_⟩
  · unfold extractBuildingHeight
    rw [hm, hh, hq]
    rfl
  · intro h1 h2 h3
    exact max_eq_right (max_le (max_le h1 h2) h3)

/-- C10 (witness): a building declaring `measuredHeight` 5 gets height 10. -/
theorem C10_witness :
    ∃ r, extractBuildingHeight bldg5 = .real r ∧ 10 ≤ r ∧
      ((5 : ℚ) ≤ 10 → (0 : ℚ) ≤ 10 → (0 : ℚ) ≤ 10 → r = 10) :=
  C10_unconditional_min_height bldg5 5 0 0 rfl rfl rfl

/-- C7: coordinate transformation never throws into the caller — it is a
total function — and on a `proj4` failure (or the identity short-circuit)
it returns the original coordinate tuple unchanged, keeping the vertex. -/
theorem C7_transform_failure_keeps_coords (tf : Proj) (coords : List JsNum) (crs : String) :
    (crs = "EPSG:4326" → transformCoordinates tf coords crs = coords) ∧
    (tf crs (idxN coords 0) (idxN coords 1) = none →
      transformCoordinates tf coords crs = coords) := by
  constructor
  · intro h
    unfold transformCoordinates
    rw [if_pos h]
  · intro h
    unfold transformCoordinates
    by_cases h4 : crs = "EPSG:4326"
    · rw [if_pos h4]
    · rw [if_neg h4, h]

/-- C7 (witness): a failing transformation of a projected tuple returns it
unchanged. -/
theorem C7_witness :
    transformCoordinates tfNone [.real 1, .real 2, .real 3] "EPSG:31256" =
      [.real 1, .real 2, .real 3] :=
  (C7_transform_failure_keeps_coords tfNone [.real 1, .real 2, .real 3] "EPSG:31256").2 rfl

/-- C4: the pipeline fails exactly on a parse failure or on a missing (or
falsy) city-model container; on failure no data is returned and the error
message is populated — with the fixed non-empty message in the
missing-container case, and the parser's own message on a parse failure. -/
theorem C4_failure_characterization (tf : Proj) (parsed : Except String JVal) :
    ((processCityGML tf parsed).success = false ↔
      (∃ msg, parsed = .error msg) ∨ (∃ root, parsed = .ok root ∧ cityModelOf root = none)) ∧
    ((processCityGML tf parsed).success = false →
      (processCityGML tf parsed).data = none ∧
      ∃ s, (processCityGML tf parsed).error = some s) ∧
    (∀ root, parsed = .ok root → cityModelOf root = none →
      (processCityGML tf parsed).error = some "Invalid CityGML: No CityModel found" ∧
      "Invalid CityGML: No CityModel found" ≠ "") ∧
    (∀ msg, parsed = .error msg →
      (processCityGML tf parsed).error = some msg ∧
      (msg ≠ "" → ∃ s, (processCityGML tf parsed).error = some s ∧ s ≠ "")) := by
  rcases parsed with msg | root
  · refine ⟨?_, ?_, ?_, ?_⟩
    · simp [processCityGML]
    · intro _
      exact ⟨rfl, msg, rfl⟩
    · intro root h2 h3
      exact Except.noConfusion h2
    · intro m hm
      have h2 : msg = m := by injection hm
      subst h2
      exact ⟨rfl, fun hne => ⟨msg, rfl, hne⟩⟩
  · rcases hcm : cityModelOf root with _ | cm
    · refine ⟨?_, ?_, ?_, ?_⟩
      · simp [processCityGML, hcm]
      · intro _
        refine ⟨by simp [processCityGML, hcm], ?_⟩
        exact ⟨"Invalid CityGML: No CityModel found", by simp [processCityGML, hcm]⟩
      · intro root2 h2 h3
        have h4 : root = root2 := by injection h2
        subst h4
        exact ⟨by simp [processCityGML, hcm], by simp⟩
      · intro m hm
        exact Except.noConfusion hm
    · have hsuc : (processCityGML tf (.ok root)).success = true := by
        simp [processCityGML, hcm]
      refine ⟨?_, ?_, ?_, ?_⟩
      · constructor
        · intro habs
          rw [hsuc] at habs
          exact absurd habs (by simp)
        · intro habs
          rcases habs with ⟨m, hm⟩ | ⟨root2, h2, h3⟩
          · exact Except.noConfusion hm
          · have h4 : root = root2 := by injection h2
            subst h4
            rw [hcm] at h3
            exact Option.noConfusion h3
      · intro habs
        rw [hsuc] at habs
        exact absurd habs (by simp)
      · intro root2 h2 h3
        have h4 : root = root2 := by injection h2
        subst h4
        rw [hcm] at h3
        exact Option.noConfusion h3
      · intro m hm
        exact Except.noConfusion hm

/-- C4 (witness): a root without a city-model container yields the fixed
non-empty error message. -/
theorem C4_witness :
    (processCityGML tfNone (.ok (.obj []))).error =
      some "Invalid CityGML: No CityModel found" ∧
    "Invalid CityGML: No CityModel found" ≠ "" :=
  (C4_failure_characterization tfNone (.ok (.obj []))).2.2.1 (.obj []) rfl rfl

/-- C2 (counterexample): in a successful result, `bldgZ`'s returned ring
has a first vertex that differs from its last vertex (they agree in x and y
but not in z, so the closure step does not fire), falsifying "first vertex
equals last vertex exactly". -/
theorem C2_counterexample :
    (processCityGML tfNone docZ).data = some dataZ ∧
    recZ.geometry = [ringZ] ∧
    ringZ.headD [] ≠ ringZ.getLastD [] := by
  refine ⟨rfl, rfl, ?_⟩
  decide

/-- C2 (amended): for every ring in every returned building, the first and
last vertex agree in their first two components (x and y; the elevation may
differ); and when the collected coordinates satisfy the closure test — the
first and last differ in x or y by JS strict inequality — one extra point
equal to the first (as a full triple) is appended, making the output length
the original length plus one. -/
theorem C2_ring_closure_xy :
    (∀ (tf : Proj) (parsed : Except String JVal) (data : CityGMLData)
        (bd : BuildingData) (ring : List (List JsNum)),
      (processCityGML tf parsed).data = some data → bd ∈ data.buildings →
      ring ∈ bd.geometry →
      idxN (ring.headD []) 0 = idxN (ring.getLastD []) 0 ∧
      idxN (ring.headD []) 1 = idxN (ring.getLastD []) 1) ∧
    (∀ cs : List (List JsNum), closeCond cs = true →
      closeRing cs = some (cs ++ [cs.headD []]) ∧
      (cs ++ [cs.headD []]).length = cs.length + 1) := by
  constructor
  · intro tf parsed data bd ring hd hbd hr
    have h1 := buildings_ok tf parsed data bd hd hbd
    have h2 := h1.2.1 ring hr
    exact ⟨h2.2.1, h2.2.2⟩
  · intro cs hc
    constructor
    · unfold closeRing closeStep
      rw [if_pos hc]
      have hlen : 0 < (cs ++ [cs.headD []]).length := by simp
      rw [if_pos hlen]
    · simp

/-- C2 (witness): the x/y agreement evaluated on the concrete returned ring
of `docZ`. -/
theorem C2_witness :
    idxN (ringZ.headD []) 0 = idxN (ringZ.getLastD []) 0 ∧
    idxN (ringZ.headD []) 1 = idxN (ringZ.getLastD []) 1 :=
  C2_ring_closure_xy.1 tfNone docZ dataZ recZ ringZ rfl
    (List.mem_singleton.mpr rfl) (List.mem_singleton.mpr rfl)

/-- C3 (counterexample): a ring consisting of a single point — fewer than 3
distinct vertices — is not discarded: it appears in the successful result. -/
theorem C3_counterexample :
    (processCityGML tfNone doc1pt).data.map (fun d => d.buildings.map (·.geometry)) =
      some [[[[.real 1, .real 2, .real 3]]]] ∧
    ([[JsNum.real 1, .real 2, .real 3]] : List (List JsNum)).length < 3 := by
  exact ⟨rfl, by decide⟩

/-- C3 (amended): every ring in every returned building is nonempty — the
extraction discards only rings that yielded zero coordinates; rings with
fewer than 3 distinct vertices are kept. -/
theorem C3_rings_nonempty (tf : Proj) (parsed : Except String JVal)
    (data : CityGMLData) (bd : BuildingData) (ring : List (List JsNum))
    (hd : (processCityGML tf parsed).data = some data) (hbd : bd ∈ data.buildings)
    (hr : ring ∈ bd.geometry) : ring ≠ [] :=
  ((buildings_ok tf parsed data bd hd hbd).2.1 ring hr).1

/-- C3 (witness): nonemptiness evaluated on the concrete returned ring of
`docZ`. -/
theorem C3_witness : ringZ ≠ [] :=
  C3_rings_nonempty tfNone docZ dataZ recZ ringZ rfl
    (List.mem_singleton.mpr rfl) (List.mem_singleton.mpr rfl)

/-- C5: a building yielding zero valid rings is excluded from the result
list (every returned record has nonempty geometry), and the concrete
two-building document — one well-formed, one with geometry tags entirely
absent — yields success with exactly the well-formed building. -/
theorem C5_graceful_isolation :
    (∀ (tf : Proj) (parsed : Except String JVal) (data : CityGMLData) (bd : BuildingData),
      (processCityGML tf parsed).data = some data → bd ∈ data.buildings →
      bd.geometry ≠ []) ∧
    ((processCityGML tfNone docC5).success = true ∧
      (processCityGML tfNone docC5).data.map (fun d => d.buildings.map (·.id)) =
        some [some (.str "A")]) := by
  constructor
  · intro tf parsed data bd hd hbd
    exact (buildings_ok tf parsed data bd hd hbd).1
  · exact ⟨rfl, rfl⟩

/-- C5 (witness): the nonempty-geometry conclusion evaluated on the concrete
returned record of `docZ`. -/
theorem C5_witness : recZ.geometry ≠ [] :=
  C5_graceful_isolation.1 tfNone docZ dataZ recZ rfl (List.mem_singleton.mpr rfl)

/-- C6 (counterexample): non-numeric text in the measured-height field
produces a building in a successful result whose height is `NaN`. -/
theorem C6_counterexample :
    (processCityGML tfNone docNaN).success = true ∧
    (processCityGML tfNone docNaN).data.map (fun d => d.buildings.map (·.height)) =
      some [JsNum.nan] := by
  exact ⟨rfl, rfl⟩

/-- C6 (amended): every returned building's height is either `NaN` (possible
when a height field holds non-numeric text) or a number at least 0 — it is
never `undefined` and never a negative number. -/
theorem C6_height_not_negative_unless_nan (tf : Proj) (parsed : Except String JVal)
    (data : CityGMLData) (bd : BuildingData)
    (hd : (processCityGML tf parsed).data = some data) (hbd : bd ∈ data.buildings) :
    bd.height = .nan ∨ ∃ q, bd.height = .real q ∧ 0 ≤ q := by
  obtain ⟨-, -, bj, hheight⟩ := buildings_ok tf parsed data bd hd hbd
  rcases extractBuildingHeight_shape bj with hn | ⟨q, he, h10⟩
  · left
    rw [hheight, hn]
  · right
    exact ⟨q, by rw [hheight, he], by linarith⟩

/-- C6 (witness): the height disjunction evaluated on the concrete returned
record of `docZ`. -/
theorem C6_witness : recZ.height = .nan ∨ ∃ q, recZ.height = .real q ∧ 0 ≤ q :=
  C6_height_not_negative_unless_nan tfNone docZ dataZ recZ rfl (List.mem_singleton.mpr rfl)

theorem find_filter_not_solid (fields : List (String × JVal)) (k : String)
    (hk : solidKeyList.contains k = false) :
    List.find? (fun p => p.1 = k)
        (List.filter (fun p => !(solidKeyList.contains p.1)) fields) =
      List.find? (fun p => p.1 = k) fields := by
  induction fields with
  | nil => rfl
  | cons a t ih =>
    by_cases ha : solidKeyList.contains a.1 = true
    · have hne : (a.1 = k : Bool) = false := by
        by_cases he : a.1 = k
        · rw [he] at ha
          rw [hk] at ha
          exact absurd ha (by simp)
        · simpa using he
      rw [List.filter_cons, List.find?_cons]
      simp only [ha, Bool.not_true, Bool.false_eq_true, if_false]
      rw [hne]
      exact ih
    · have ha2 : (!(solidKeyList.contains a.1)) = true := by
        simp only [Bool.not_eq_true'] at ha ⊢
        simpa using ha
      rw [List.filter_cons, if_pos ha2, List.find?_cons, List.find?_cons]
      by_cases he : (a.1 = k : Bool) = true
      · rw [he]
      · rw [Bool.not_eq_true] at he
        rw [he]
        exact ih

theorem jget_eraseSolidKeys (e : JVal) (k : String)
    (hk : solidKeyList.contains k = false) :
    jget (eraseSolidKeys e) k = jget e k := by
  cases e with
  | obj fields =>
    simp only [eraseSolidKeys, jget]
    rw [find_filter_not_solid fields k hk]
  | str s => rfl
  | num n => rfl
  | arr l => rfl

theorem groundSurfacesPass_erase (tf : Proj) (e : JVal) (crs : String) (b : Bounds) :
    groundSurfacesPass tf (eraseSolidKeys e) crs b = groundSurfacesPass tf e crs b := by
  unfold groundSurfacesPass
  rw [jget_eraseSolidKeys e "bldg:GroundSurface" (by decide),
      jget_eraseSolidKeys e "GroundSurface" (by decide)]

/-- C8 (counterexample): an element carrying a truthy ground-surface entry
that yields no polygon, together with a solid representation: the returned
footprint ring comes from the solid fallback even though a ground-surface
element was found, falsifying "the solid fallback is used only when zero
ground-surfaces were found". -/
theorem C8_counterexample :
    jtruthy (jsOr (jget elemC8 "bldg:GroundSurface") (jget elemC8 "GroundSurface")) = true ∧
    (groundSurfacesPass tfNone elemC8 "EPSG:4326" boundsInit).1 = [] ∧
    (extractSurfacesFromElement tfNone elemC8 "EPSG:4326" boundsInit).1 = [ringC8] ∧
    ringC8 ≠ [] := by
  exact ⟨rfl, rfl, rfl, by decide⟩

/-- C8 (amended): the solid fallback is used exactly when the ground-surface
pass yielded zero polygons (not zero ground-surface elements); when at least
one polygon was extracted from ground surfaces, the result is the
ground-surface pass alone, and the element's solid fields are irrelevant —
removing them does not change the output, so the two sources are never
merged. -/
theorem C8_ground_precedence (tf : Proj) (e : JVal) (crs : String) (b : Bounds)
    (h : (groundSurfacesPass tf e crs b).1 ≠ []) :
    extractSurfacesFromElement tf e crs b = groundSurfacesPass tf e crs b ∧
    extractSurfacesFromElement tf (eraseSolidKeys e) crs b =
      extractSurfacesFromElement tf e crs b := by
  constructor
  · show (if (groundSurfacesPass tf e crs b).1 = []
        then solidPass tf e crs (groundSurfacesPass tf e crs b).2
        else groundSurfacesPass tf e crs b) = groundSurfacesPass tf e crs b
    rw [if_neg h]
  · show (if (groundSurfacesPass tf (eraseSolidKeys e) crs b).1 = []
        then solidPass tf (eraseSolidKeys e) crs (groundSurfacesPass tf (eraseSolidKeys e) crs b).2
        else groundSurfacesPass tf (eraseSolidKeys e) crs b) =
      (if (groundSurfacesPass tf e crs b).1 = []
        then solidPass tf e crs (groundSurfacesPass tf e crs b).2
        else groundSurfacesPass tf e crs b)
    rw [groundSurfacesPass_erase, if_neg h, if_neg h]

/-- C8 (witness): the precedence conclusion evaluated on a concrete element
with both a polygon-bearing ground surface and a solid. -/
theorem C8_witness :
    extractSurfacesFromElement tfNone elemC8g "EPSG:4326" boundsInit =
      groundSurfacesPass tfNone elemC8g "EPSG:4326" boundsInit ∧
    extractSurfacesFromElement tfNone (eraseSolidKeys elemC8g) "EPSG:4326" boundsInit =
      extractSurfacesFromElement tfNone elemC8g "EPSG:4326" boundsInit :=
  C8_ground_precedence tfNone elemC8g "EPSG:4326" boundsInit (by decide)

theorem processCityGML_ok_data (tf : Proj) (root cm : JVal)
    (hcm : cityModelOf root = some cm) :
    (processCityGML tf (.ok root)).data = some
      { buildings := (processMembers tf (extractCRS cm)
          (toArr (jsOrD (jget cm "cityObjectMember") (.arr []))) boundsInit).1,
        bounds := if jsStrictEq (docBounds tf cm).north (.real (-90)) = true
          then none else some (docBounds tf cm),
        sourceCRS := extractCRS cm } := by
  simp only [processCityGML, hcm, docBounds]

/-- C9 (counterexample): a document whose vertices all have latitude below
-90 narrows the south, east and west components of the accumulator away
from their initial extremes, yet the result omits the bounds — presence is
decided by the north component alone, not by whether the accumulator
narrowed. -/
theorem C9_counterexample :
    (processCityGML tfNone docC9).success = true ∧
    (processCityGML tfNone docC9).data.map (·.bounds) = some none ∧
    docBounds tfNone cmC9 =
      { north := .real (-90), south := .real (-100), east := .real 11, west := .real 10 } ∧
    docBounds tfNone cmC9 ≠ boundsInit := by
  exact ⟨rfl, rfl, rfl, by decide⟩

/-- C9 (amended): in a successful result the bounds field is present if and
only if the north component of the accumulator is (by JS strict comparison)
different from its initial -90 — narrowing only the south, east or west
components does not make the bounds reported. -/
theorem C9_bounds_reported_iff_north_moved (tf : Proj) (root cityModel : JVal)
    (hcm : cityModelOf root = some cityModel) :
    ∃ d, (processCityGML tf (.ok root)).data = some d ∧
      (d.bounds = some (docBounds tf cityModel) ↔
        jsStrictEq (docBounds tf cityModel).north (.real (-90)) = false) ∧
      (d.bounds = none ↔
        jsStrictEq (docBounds tf cityModel).north (.real (-90)) = true) := by
  refine ⟨_, processCityGML_ok_data tf root cityModel hcm, ?_, ?_⟩
  · by_cases hb : jsStrictEq (docBounds tf cityModel).north (.real (-90)) = true
    · simp [hb]
    · simp only [Bool.not_eq_true] at hb
      simp [hb]
  · by_cases hb : jsStrictEq (docBounds tf cityModel).north (.real (-90)) = true
    · simp [hb]
    · simp only [Bool.not_eq_true] at hb
      simp [hb]

/-- C9 (witness): the north-component characterization evaluated on the
concrete document whose bounds stay unreported. -/
theorem C9_witness :
    ∃ d, (processCityGML tfNone (.ok rootC9)).data = some d ∧
      (d.bounds = some (docBounds tfNone cmC9) ↔
        jsStrictEq (docBounds tfNone cmC9).north (.real (-90)) = false) ∧
      (d.bounds = none ↔
        jsStrictEq (docBounds tfNone cmC9).north (.real (-90)) = true) :=
  C9_bounds_reported_iff_north_moved tfNone rootC9 cmC9 rfl
